import Mathlib

/-!
Verification development for the `ei_turtle` robot-control program
(`src/ei/main_view.py`).  The Python module is shallowly embedded:

* marker-quad geometry (`calculate_distance_from_qr_code`) is embedded over
  `ℝ`; the one IEEE-754 effect that is observable — a positive constant
  divided by a zero mean edge length yielding `+∞` — is made explicit by
  valuing the estimated distance in `EReal` (`⊤` stands for the float `inf`);
* the `MainView` class becomes a record of the fields the control logic
  reads and writes, and each method becomes a state transformer that also
  returns the list of velocity commands published during the call, plus a
  `faulted` flag recording an uncaught Python exception;
* external collaborators (zenoh session, cv2 decoding, pygame, BreezySLAM)
  are not modelled; where a method consumes their output (a detected quad,
  a SLAM pose) the embedded method takes that output as an argument.
-/

open Real

/-- A 2-D image point (pixel coordinates), one row of the detected quad. -/
abbrev Pt : Type := ℝ × ℝ

/-- A detected marker quad: four ordered corner points. -/
abbrev Quad : Type := Fin 4 → Pt

/-- `distance_btw = lambda x, y: np.sqrt(np.dot(x - y, x - y))` for 2-D
points. -/
noncomputable def distance_btw (x y : Pt) : ℝ :=
  Real.sqrt ((x.1 - y.1) * (x.1 - y.1) + (x.2 - y.2) * (x.2 - y.2))

/-- `width = np.mean([distance_btw(points[i], points[i + 1]) for i in
range(3)])` — the mean of the three consecutive leading edge lengths. -/
noncomputable def qr_width (p : Quad) : ℝ :=
  (distance_btw (p 0) (p 1) + distance_btw (p 1) (p 2) +
    distance_btw (p 2) (p 3)) / 3

/-- `known_width = 100` (calibration constant). -/
def known_width : ℝ := 100

/-- `known_distance = 40` (calibration constant). -/
def known_distance : ℝ := 40

/-- `distance = (known_distance * known_width) / width`.  The numerator is
the positive constant `4000` and `width` is a mean of norms, hence `≥ 0`;
in NumPy float arithmetic the quotient is `+inf` when `width == 0` and the
finite real quotient otherwise.  We value the result in `EReal`, `⊤`
standing for the float `inf`. -/
noncomputable def calculate_distance_from_qr_code (p : Quad) : EReal :=
  if qr_width p = 0 then ⊤
  else (((known_distance * known_width) / qr_width p : ℝ) : EReal)

/-- `MANUAL_MODE = 0`. -/
def MANUAL_MODE : ℤ := 0

/-- `QR_CODE_MODE = 1`. -/
def QR_CODE_MODE : ℤ := 1

/-- `LIDAR_MODE = 2`. -/
def LIDAR_MODE : ℤ := 2

/-- `STATE_LOST = 0`. -/
def STATE_LOST : ℤ := 0

/-- `STATE_ALIGN_RIGHT = 1`. -/
def STATE_ALIGN_RIGHT : ℤ := 1

/-- `STATE_ALIGN_LEFT = 2`. -/
def STATE_ALIGN_LEFT : ℤ := 2

/-- `STATE_FORWARD = 3`. -/
def STATE_FORWARD : ℤ := 3

/-- `STATE_BACKWARD = 4`. -/
def STATE_BACKWARD : ℤ := 4

/-- `STATE_FINISH = 5`. -/
def STATE_FINISH : ℤ := 5

/-- `position = np.mean(quad[:, 1])` — the mean of coordinate axis `1`
(the image-width axis after the rotate/flip preprocessing) over the four
corners. -/
noncomputable def quad_mean_axis1 (q : Quad) : ℝ :=
  ((q 0).2 + (q 1).2 + (q 2).2 + (q 3).2) / 4

/-- The decision core of `MainView.update_state(image_shape, quad)`:
`width, height = image_shape[:2]`, then the first-match cascade over
`position` and `distance`.  The distance comparison happens on the
(possibly infinite) float value, hence in `EReal`. -/
noncomputable def update_state (width height : ℝ) (quad : Option Quad) : ℤ :=
  match quad with
  | none => STATE_LOST
  | some q =>
    let position := quad_mean_axis1 q
    let distance := calculate_distance_from_qr_code q
    if position > width / 2 + 50 then STATE_ALIGN_RIGHT
    else if position < width / 2 - 50 then STATE_ALIGN_LEFT
    else if distance > ((30 + 3 : ℝ) : EReal) then STATE_FORWARD
    else if distance < ((30 - 3 : ℝ) : EReal) then STATE_BACKWARD
    else STATE_FINISH

/-- Tie-broken condition for `STATE_LOST`: the quad is absent. -/
def tb_lost (quad : Option Quad) : Prop := quad = none

/-- Tie-broken condition for `STATE_ALIGN_RIGHT`: quad present and lateral
position beyond half-width plus the 50 px tolerance. -/
def tb_align_right (width : ℝ) (quad : Option Quad) : Prop :=
  ∃ q, quad = some q ∧ quad_mean_axis1 q > width / 2 + 50

/-- Tie-broken condition for `STATE_ALIGN_LEFT`: quad present, the
align-right condition fails, and lateral position is below half-width minus
the tolerance. -/
def tb_align_left (width : ℝ) (quad : Option Quad) : Prop :=
  ∃ q, quad = some q ∧ ¬ quad_mean_axis1 q > width / 2 + 50 ∧
    quad_mean_axis1 q < width / 2 - 50

/-- Tie-broken condition for `STATE_FORWARD`: quad present, both alignment
conditions fail, and the estimated distance exceeds the 30 cm target plus
the 3 cm tolerance. -/
def tb_forward (width : ℝ) (quad : Option Quad) : Prop :=
  ∃ q, quad = some q ∧ ¬ quad_mean_axis1 q > width / 2 + 50 ∧
    ¬ quad_mean_axis1 q < width / 2 - 50 ∧
    calculate_distance_from_qr_code q > ((30 + 3 : ℝ) : EReal)

/-- Tie-broken condition for `STATE_BACKWARD`: quad present, the three
previous conditions fail, and the estimated distance is below the target
minus the tolerance. -/
def tb_backward (width : ℝ) (quad : Option Quad) : Prop :=
  ∃ q, quad = some q ∧ ¬ quad_mean_axis1 q > width / 2 + 50 ∧
    ¬ quad_mean_axis1 q < width / 2 - 50 ∧
    ¬ calculate_distance_from_qr_code q > ((30 + 3 : ℝ) : EReal) ∧
    calculate_distance_from_qr_code q < ((30 - 3 : ℝ) : EReal)

/-- Tie-broken condition for `STATE_FINISH`: quad present and every earlier
condition fails. -/
def tb_finish (width : ℝ) (quad : Option Quad) : Prop :=
  ∃ q, quad = some q ∧ ¬ quad_mean_axis1 q > width / 2 + 50 ∧
    ¬ quad_mean_axis1 q < width / 2 - 50 ∧
    ¬ calculate_distance_from_qr_code q > ((30 + 3 : ℝ) : EReal) ∧
    ¬ calculate_distance_from_qr_code q < ((30 - 3 : ℝ) : EReal)

/-- Claim C1: the guidance state machine is a total deterministic function
of the image dimensions and the (possibly absent) marker quad: it always
yields exactly one of the six states, each state holds exactly when its
first-match tie-broken condition holds (quad absent → LOST; lateral
position beyond half-width + 50 px → ALIGN_RIGHT; below half-width −
50 px → ALIGN_LEFT; distance > 33 cm → FORWARD; distance < 27 cm →
BACKWARD; otherwise FINISH), and those six conditions are mutually
exclusive. -/
theorem guidance_state_total_deterministic (width height : ℝ)
    (quad : Option Quad) :
    (update_state width height quad = STATE_LOST ∨
      update_state width height quad = STATE_ALIGN_RIGHT ∨
      update_state width height quad = STATE_ALIGN_LEFT ∨
      update_state width height quad = STATE_FORWARD ∨
      update_state width height quad = STATE_BACKWARD ∨
      update_state width height quad = STATE_FINISH) ∧
    (update_state width height quad = STATE_LOST ↔ tb_lost quad) ∧
    (update_state width height quad = STATE_ALIGN_RIGHT ↔
      tb_align_right width quad) ∧
    (update_state width height quad = STATE_ALIGN_LEFT ↔
      tb_align_left width quad) ∧
    (update_state width height quad = STATE_FORWARD ↔
      tb_forward width quad) ∧
    (update_state width height quad = STATE_BACKWARD ↔
      tb_backward width quad) ∧
    (update_state width height quad = STATE_FINISH ↔
      tb_finish width quad) := by
  cases quad with
  | none =>
    simp [update_state, tb_lost, tb_align_right, tb_align_left, tb_forward,
      tb_backward, tb_finish, STATE_LOST, STATE_ALIGN_RIGHT,
      STATE_ALIGN_LEFT, STATE_FORWARD, STATE_BACKWARD, STATE_FINISH]
  | some q =>
    simp only [update_state, tb_lost, tb_align_right, tb_align_left,
      tb_forward, tb_backward, tb_finish, exists_eq_left']
    split_ifs with h1 h2 h3 h4 <;>
      simp_all [STATE_LOST, STATE_ALIGN_RIGHT, STATE_ALIGN_LEFT,
        STATE_FORWARD, STATE_BACKWARD, STATE_FINISH] <;>
      exact ⟨fun hA => absurd hA (by push_neg; linarith),
        fun hA => absurd hA (by push_neg; linarith),
        fun hA => absurd hA (by push_neg; linarith)⟩

/-- The degenerate quad: all four corners at the same pixel (marker
collapsed to a point), so every edge has length `0`. -/
noncomputable def degenQuad : Quad := fun _ => (0, 0)

/-- A well-separated quad: the unit square, every leading edge of
length `1`. -/
noncomputable def unitSquareQuad : Quad
  | 0 => (0, 0)
  | 1 => (1, 0)
  | 2 => (1, 1)
  | 3 => (0, 1)

/-- Claim C2, counterexample: on the marker collapsed to a point the code
does NOT fail with `InvalidMarkerGeometry` and does NOT report "no
marker": `calculate_distance_from_qr_code` divides anyway and propagates
the IEEE infinity (`⊤`), and `update_state` on a 720-wide image classifies
the degenerate marker as `STATE_ALIGN_LEFT`, not `STATE_LOST`.  (No
exception type named `InvalidMarkerGeometry` exists anywhere in the
source.) -/
theorem qr_degenerate_not_rejected :
    calculate_distance_from_qr_code degenQuad = ⊤ ∧
    update_state 720 480 (some degenQuad) = STATE_ALIGN_LEFT ∧
    STATE_ALIGN_LEFT ≠ STATE_LOST := by
  have hw : qr_width degenQuad = 0 := by
    simp [qr_width, degenQuad, distance_btw]
  refine ⟨by simp [calculate_distance_from_qr_code, hw], ?_, by decide⟩
  have hpos : quad_mean_axis1 degenQuad = 0 := by
    simp [quad_mean_axis1, degenQuad]
  simp only [update_state, hpos]
  norm_num

/-- Claim C2, amended: for every 4-point quad whose three leading edges
have positive length, `distance_cm = 4000 / mean_edge_length` is a finite
positive real; but a quad with zero mean edge length is not rejected — the
division is performed anyway and produces the IEEE infinity `⊤` (there is
no `InvalidMarkerGeometry` failure path and no "no marker" report). -/
theorem qr_distance_finite_positive (q : Quad) :
    ((0 < distance_btw (q 0) (q 1) ∧ 0 < distance_btw (q 1) (q 2) ∧
      0 < distance_btw (q 2) (q 3)) →
      ∃ r : ℝ, calculate_distance_from_qr_code q = (r : EReal) ∧ 0 < r) ∧
    (qr_width q = 0 → calculate_distance_from_qr_code q = ⊤) := by
  constructor
  · rintro ⟨h1, h2, h3⟩
    have hw : 0 < qr_width q := by
      unfold qr_width; linarith
    refine ⟨(known_distance * known_width) / qr_width q, ?_, ?_⟩
    · simp [calculate_distance_from_qr_code, ne_of_gt hw]
    · have : (0:ℝ) < known_distance * known_width := by
        norm_num [known_distance, known_width]
      positivity
  · intro hw
    simp [calculate_distance_from_qr_code, hw]

/-- Witness for `qr_distance_finite_positive` at the unit-square quad:
its three leading edges have length `1`, and the estimated distance is a
finite positive real. -/
theorem qr_distance_finite_positive_witness :
    (0 < distance_btw (unitSquareQuad 0) (unitSquareQuad 1) ∧
      0 < distance_btw (unitSquareQuad 1) (unitSquareQuad 2) ∧
      0 < distance_btw (unitSquareQuad 2) (unitSquareQuad 3)) ∧
    ∃ r : ℝ, calculate_distance_from_qr_code unitSquareQuad = (r : EReal) ∧
      0 < r := by
  have e0 : unitSquareQuad 0 = (0, 0) := rfl
  have e1 : unitSquareQuad 1 = (1, 0) := rfl
  have e2 : unitSquareQuad 2 = (1, 1) := rfl
  have e3 : unitSquareQuad 3 = (0, 1) := rfl
  have h : 0 < distance_btw (unitSquareQuad 0) (unitSquareQuad 1) ∧
      0 < distance_btw (unitSquareQuad 1) (unitSquareQuad 2) ∧
      0 < distance_btw (unitSquareQuad 2) (unitSquareQuad 3) := by
    rw [e0, e1, e2, e3]
    norm_num [distance_btw]
  exact ⟨h, (qr_distance_finite_positive unitSquareQuad).1 h⟩

/-- One velocity-command channel: `("Forward", v)` or `("Rotate", v)`. -/
inductive Axis : Type
  | Forward : Axis
  | Rotate : Axis
deriving DecidableEq

/-- One published velocity command `(axis, magnitude)`. -/
abbrev Cmd : Type := Axis × ℝ

/-- The mutable fields of `MainView` that the control logic reads or
writes.  `camera_image` is modelled by the width of the stored surface
(`get_width()` is its only use); fields the modelled methods never touch
(`surface_configuration`, `uPrevious_w`, `uCurent_w`, `setValue_w`, their
`_l` twins, `position`, `cumulative_error_distance`, `last_points`,
`map`, images, publishers) are omitted. -/
structure MainView : Type where
  mode : ℤ
  state : ℤ
  last_state : ℤ
  camera_image : Option ℝ
  qr_code_center_x : ℝ
  distance_to_qr_code : ℝ
  lastErr_w : ℝ
  preLastErr_w : ℝ
  errSum_w : ℝ
  lastErr_l : ℝ
  preLastErr_l : ℝ
  errSum_l : ℝ
  destination : Option Pt
  pos : ℝ × ℝ × ℝ
  last_angle : ℝ
  cumulative_error_angle : ℝ
  map_size_meters : ℝ

/-- The field values established by `MainView.__init__` (zenoh/pygame
wiring omitted): `state = STATE_FINISH`, `last_state = -1`,
`destination = np.array([0, 0])`, `mode = MANUAL_MODE`,
`map_size_meters = 5`, no camera frame yet. -/
noncomputable def mainViewInit : MainView where
  mode := MANUAL_MODE
  state := STATE_FINISH
  last_state := -1
  camera_image := none
  qr_code_center_x := 0
  distance_to_qr_code := 0
  lastErr_w := 0
  preLastErr_w := 0
  errSum_w := 0
  lastErr_l := 0
  preLastErr_l := 0
  errSum_l := 0
  destination := some (0, 0)
  pos := (0, 0, 0)
  last_angle := 0
  cumulative_error_angle := 0
  map_size_meters := 5

/-- `set_movement(linear, angular)`: publishes `("Forward", linear)` then
`("Rotate", angular)`. -/
noncomputable def set_movement (linear angular : ℝ) : List Cmd :=
  [(Axis.Forward, linear), (Axis.Rotate, angular)]

/-- Result of one embedded method call: the updated view, the velocity
commands published during the call (in publication order), and whether the
call raised an uncaught Python exception. -/
structure StepResult : Type where
  view : MainView
  cmds : List Cmd
  faulted : Bool

/-- `np.arctan(y / x)` under IEEE-754 semantics: for `x = 0` the quotient
is `±inf` and `arctan(±inf) = ±π/2`; for `x = 0, y = 0` the quotient is
NaN and so is the arctangent — we use `0` as the stand-in (the NaN's only
consumer is `|relative_angle| > 4`, conjoined with
`relative_distance > 5`, which is false whenever `x = y = 0`, so the
stand-in is observationally equivalent). -/
noncomputable def ieeeAtan (y x : ℝ) : ℝ :=
  if x = 0 then (if 0 < y then Real.pi / 2 else if y < 0 then -(Real.pi / 2) else 0)
  else Real.arctan (y / x)

/-- `(np.pi + np.arctan(y / x) if x >= 0 else np.arctan(y / x)) * 180 /
np.pi` — the waypoint bearing computation of `go_to_destination`. -/
noncomputable def relative_position_angle (x y : ℝ) : ℝ :=
  (if 0 ≤ x then Real.pi + ieeeAtan y x else ieeeAtan y x) * 180 / Real.pi

/-- `relative_angle = relative_position_angle - angle` for destination `d`:
the bearing of `d - (pos[0], pos[1])` minus the heading `pos[2]`. -/
noncomputable def waypoint_relative_angle (s : MainView) (d : Pt) : ℝ :=
  relative_position_angle (d.1 - s.pos.1) (d.2 - s.pos.2.1) - s.pos.2.2

/-- `relative_distance = np.sqrt(x ** 2 + y ** 2)` for destination `d`. -/
noncomputable def waypoint_relative_distance (s : MainView) (d : Pt) : ℝ :=
  Real.sqrt ((d.1 - s.pos.1) ^ 2 + (d.2 - s.pos.2.1) ^ 2)

/-- `MainView.go_to_destination`: the waypoint controller. -/
noncomputable def go_to_destination (s : MainView) : StepResult :=
  match s.destination with
  | none => ⟨s, set_movement 0 0, false⟩
  | some d =>
    let relative_angle := waypoint_relative_angle s d
    let relative_distance := waypoint_relative_distance s d
    if |relative_angle| > 4 ∧ relative_distance > 5 then
      let alpha := 1 * relative_angle + 2 * (relative_angle - s.last_angle) +
        0.04 * s.cumulative_error_angle
      ⟨{ s with
          cumulative_error_angle :=
            s.cumulative_error_angle + (relative_angle - s.last_angle),
          last_angle := relative_angle },
        set_movement 0 alpha, false⟩
    else if relative_distance > 5 then ⟨s, set_movement 20 0, false⟩
    else ⟨s, set_movement 0 0, false⟩

/-- The `if self.mode == QR_CODE_MODE` branch of `MainView.update`.  When
the state changed, the code publishes the settle pair and then evaluates
`self.camera_image.get_width()`: with no frame received `camera_image` is
`None` and the attribute access raises (`faulted = true`) with no further
mutation.  Otherwise the PID terms are updated, `last_state` is recorded,
and the per-state extra command is published. -/
noncomputable def marker_follow_update (s : MainView) : StepResult :=
  if s.state ≠ s.last_state then
    match s.camera_image with
    | none => ⟨s, [(Axis.Forward, 0), (Axis.Rotate, 0)], true⟩
    | some w =>
      let err_w := -s.qr_code_center_x + w / 2
      let err_l := s.distance_to_qr_code - 30
      let dErr_w := err_w - s.lastErr_w
      let errSum_w' := s.errSum_w + err_w
      let vel_w := 0.4 * err_w + 0.0 * errSum_w' + 0.2 * dErr_w
      let dErr_l := err_l - s.lastErr_l
      let errSum_l' := s.errSum_l + err_l
      let vel_l := min (1.5 * err_l + 0.0 * errSum_l' + 0.2 * dErr_l) 20
      let extra : List Cmd :=
        if s.state = 1 then [(Axis.Rotate, vel_w)]
        else if s.state = 2 then [(Axis.Rotate, vel_w)]
        else if s.state = 3 then [(Axis.Forward, vel_l)]
        else if s.state = 4 then [(Axis.Forward, vel_l)]
        else []
      ⟨{ s with
          preLastErr_w := s.lastErr_w
          lastErr_w := err_w
          errSum_w := errSum_w'
          preLastErr_l := s.lastErr_l
          lastErr_l := err_l
          errSum_l := errSum_l'
          last_state := s.state },
        [(Axis.Forward, 0), (Axis.Rotate, 0)] ++ extra, false⟩
  else ⟨s, [], false⟩

/-- `MainView.update` (the per-cycle handler, GUI refresh omitted):
dispatches on the mode flag — the marker-following branch under
`QR_CODE_MODE`, `go_to_destination()` under `LIDAR_MODE`, nothing
otherwise. -/
noncomputable def update (s : MainView) : StepResult :=
  if s.mode = QR_CODE_MODE then marker_follow_update s
  else if s.mode = LIDAR_MODE then go_to_destination s
  else ⟨s, [], false⟩

/-- `MainView.turtle_up`. -/
noncomputable def turtle_up (s : MainView) : List Cmd :=
  if s.mode = MANUAL_MODE then [(Axis.Forward, 20)] else []

/-- `MainView.turtle_down`. -/
noncomputable def turtle_down (s : MainView) : List Cmd :=
  if s.mode = MANUAL_MODE then [(Axis.Forward, -20)] else []

/-- `MainView.turtle_left`. -/
noncomputable def turtle_left (s : MainView) : List Cmd :=
  if s.mode = MANUAL_MODE then [(Axis.Rotate, 100)] else []

/-- `MainView.turtle_right`. -/
noncomputable def turtle_right (s : MainView) : List Cmd :=
  if s.mode = MANUAL_MODE then [(Axis.Rotate, -100)] else []

/-- `MainView.turtle_standby_up`. -/
noncomputable def turtle_standby_up (s : MainView) : List Cmd :=
  if s.mode = MANUAL_MODE then [(Axis.Forward, 0)] else []

/-- `MainView.turtle_standby_down`. -/
noncomputable def turtle_standby_down (s : MainView) : List Cmd :=
  if s.mode = MANUAL_MODE then [(Axis.Forward, 0)] else []

/-- `MainView.turtle_standby_left`. -/
noncomputable def turtle_standby_left (s : MainView) : List Cmd :=
  if s.mode = MANUAL_MODE then [(Axis.Rotate, 0)] else []

/-- `MainView.turtle_standby_right`. -/
noncomputable def turtle_standby_right (s : MainView) : List Cmd :=
  if s.mode = MANUAL_MODE then [(Axis.Rotate, 0)] else []

/-- `MainView.switch_to_manual`. -/
def switch_to_manual (s : MainView) : MainView := { s with mode := MANUAL_MODE }

/-- `MainView.switch_to_qrcode`. -/
def switch_to_qrcode (s : MainView) : MainView := { s with mode := QR_CODE_MODE }

/-- `MainView.switch_to_lidar`. -/
def switch_to_lidar (s : MainView) : MainView := { s with mode := LIDAR_MODE }

/-- `MainView.set_destination(dest)` — unconditional assignment of an
arbitrary value (including `None`). -/
def set_destination (s : MainView) (dest : Option Pt) : MainView :=
  { s with destination := dest }

/-- `MainView.mouse_input` (GUI forwarding omitted): on a left click
(`button == 1`) the pixel position is mapped through the display-to-world
transform and assigned to `destination` only when strictly inside
`±map_size_meters*100/2` on both axes. -/
noncomputable def mouse_input (s : MainView) (button : ℕ) (px py : ℝ) :
    MainView :=
  if button = 1 then
    let q0 := ((px - 965) / 300) * s.map_size_meters - s.map_size_meters / 2
    let q1 := ((py - 405) / 300) * s.map_size_meters - s.map_size_meters / 2
    let r0 := -(q0 * 100)
    let r1 := q1 * 100
    if -s.map_size_meters * 100 / 2 < r0 ∧ r0 < s.map_size_meters * 100 / 2 then
      if -s.map_size_meters * 100 / 2 < r1 ∧ r1 < s.map_size_meters * 100 / 2 then
        { s with destination := some (r0, r1) }
      else s
    else s
  else s

/-- `MainView.camera_image_callback` (image decode and drawing omitted):
takes the detector output — the image width (`image.shape[0]`, which is
also the width of the stored pygame surface) and the detected quad, plus
the opaque `solvePnP` translation norm — updates the marker pose fields
when a quad is present, always reclassifies `state`, and stores the
frame. -/
noncomputable def camera_image_callback (s : MainView) (width height : ℝ)
    (quad : Option Quad) (tvec_norm : ℝ) : MainView :=
  let s1 := match quad with
    | some q =>
      { s with
        qr_code_center_x := quad_mean_axis1 q,
        distance_to_qr_code := tvec_norm * 4 }
    | none => s
  { s1 with
    state := update_state width height quad,
    camera_image := some width }

/-- Python `int()` applied to a float: truncation toward zero. -/
noncomputable def pyInt (r : ℝ) : ℤ := if 0 ≤ r then ⌊r⌋ else -⌊-r⌋

/-- The instant-scan drawing loop of `lidar_scan_callback`: for each
`(i, distance)` of `enumerate(distances)` with `distance < 750`, a circle
is drawn at `(int(300 + d/750*300*cos(radians(i))),
int(300 + d/750*300*sin(radians(i))))` (for the usual 360-ray scan,
`angles[i] = i`). -/
noncomputable def lidar_cloud (distances : List ℝ) : List (ℤ × ℤ) :=
  (distances.enum.filter (fun p => decide (p.2 < 750))).map (fun p =>
    let real_distance := p.2 / 750 * 300
    let angle := (p.1 : ℝ) * Real.pi / 180
    (pyInt (300 + real_distance * Real.cos angle),
      pyInt (300 + real_distance * Real.sin angle)))

/-- The two data views produced by `lidar_scan_callback` from one scan
message: the millimetre scan and the `0..359` angle list handed to
`self.slam.update(...)`, and the bounded Cartesian cloud drawn on the
instant-scan image. -/
structure LidarOutputs : Type where
  slam_scan_mm : List ℝ
  slam_angles : List ℕ
  cloud : List (ℤ × ℤ)

/-- `lidar_scan_callback`'s data flow: `angles = list(range(0, 360))`,
`distances = list(map(lambda z: z * 1000.0, scan.ranges))`; the full
`distances` list goes to SLAM, the cloud only keeps rays closer than
750 mm.  `scan.intensities` is an argument so that (non-)dependence on it
can be stated, exactly as the message carries it. -/
noncomputable def lidar_scan_outputs (ranges intensities : List ℝ) :
    LidarOutputs :=
  let distances := ranges.map (fun z => z * 1000)
  { slam_scan_mm := distances,
    slam_angles := List.range 360,
    cloud := lidar_cloud distances }

/-- The state effect of `lidar_scan_callback` on `MainView`: `self.pos`
becomes the SLAM pose estimate scaled to centimetres and recentred by
`map_size_meters * 100 / 2` on both axes.  `slam.getpos()` is opaque, so
its raw result is an argument. -/
noncomputable def lidar_scan_callback (s : MainView)
    (ranges intensities : List ℝ) (slam_pos : ℝ × ℝ × ℝ) : MainView :=
  { s with
    pos := (slam_pos.1 / 10 - s.map_size_meters * 100 / 2,
      slam_pos.2.1 / 10 - s.map_size_meters * 100 / 2, slam_pos.2.2) }

/-- Claim C3: in QR-code mode with a camera frame on hand, the
marker-following controller is edge-triggered: if the guidance state
equals `last_state` the update publishes nothing and changes nothing; if
the state changed, the update does not fault, records the new state in
`last_state`, and publishes exactly the zero-velocity settle pair followed
by one rotate-only command for ALIGN_RIGHT/ALIGN_LEFT, one translate-only
command for FORWARD/BACKWARD, and nothing further for LOST/FINISH. -/
theorem marker_follow_edge_triggered (s : MainView) (w : ℝ)
    (hm : s.mode = QR_CODE_MODE) (hc : s.camera_image = some w) :
    (s.state = s.last_state →
      (update s).cmds = [] ∧ (update s).view = s ∧
      (update s).faulted = false) ∧
    (s.state ≠ s.last_state →
      (update s).faulted = false ∧
      (update s).view.last_state = s.state ∧
      ((s.state = STATE_ALIGN_RIGHT ∨ s.state = STATE_ALIGN_LEFT) →
        ∃ v, (update s).cmds =
          [(Axis.Forward, 0), (Axis.Rotate, 0), (Axis.Rotate, v)]) ∧
      ((s.state = STATE_FORWARD ∨ s.state = STATE_BACKWARD) →
        ∃ v, (update s).cmds =
          [(Axis.Forward, 0), (Axis.Rotate, 0), (Axis.Forward, v)]) ∧
      ((s.state = STATE_LOST ∨ s.state = STATE_FINISH) →
        (update s).cmds = [(Axis.Forward, 0), (Axis.Rotate, 0)])) := by
  have hu : update s = marker_follow_update s := by
    simp [update, hm]
  rw [hu]
  constructor
  · intro hse
    simp [marker_follow_update, hse]
  · intro hne
    refine ⟨?_, ?_, ?_, ?_, ?_⟩
    · simp [marker_follow_update, hne, hc]
    · simp [marker_follow_update, hne, hc]
    · rintro (h | h)
      · have hne1 : ¬ ((1 : ℤ) = s.last_state) := by
          rw [h] at hne; simpa [STATE_ALIGN_RIGHT] using hne
        exact ⟨_, by simp [marker_follow_update, hc, h, hne1,
          STATE_ALIGN_RIGHT] <;> rfl⟩
      · have hne1 : ¬ ((2 : ℤ) = s.last_state) := by
          rw [h] at hne; simpa [STATE_ALIGN_LEFT] using hne
        exact ⟨_, by simp [marker_follow_update, hc, h, hne1,
          STATE_ALIGN_LEFT] <;> rfl⟩
    · rintro (h | h)
      · have hne1 : ¬ ((3 : ℤ) = s.last_state) := by
          rw [h] at hne; simpa [STATE_FORWARD] using hne
        exact ⟨_, by simp [marker_follow_update, hc, h, hne1,
          STATE_FORWARD] <;> rfl⟩
      · have hne1 : ¬ ((4 : ℤ) = s.last_state) := by
          rw [h] at hne; simpa [STATE_BACKWARD] using hne
        exact ⟨_, by simp [marker_follow_update, hc, h, hne1,
          STATE_BACKWARD] <;> rfl⟩
    · rintro (h | h)
      · have hne1 : ¬ ((0 : ℤ) = s.last_state) := by
          rw [h] at hne; simpa [STATE_LOST] using hne
        simp [marker_follow_update, hc, h, hne1, STATE_LOST]
      · have hne1 : ¬ ((5 : ℤ) = s.last_state) := by
          rw [h] at hne; simpa [STATE_FINISH] using hne
        simp [marker_follow_update, hc, h, hne1, STATE_FINISH]

/-- The view after the app starts, one frame with no detectable marker
arrives (720 px wide), and the operator clicks the "QRcode Mode" button:
guidance state LOST, `last_state` still `-1`, a frame width on hand. -/
noncomputable def qrNoMarkerView : MainView :=
  switch_to_qrcode (camera_image_callback mainViewInit 720 480 none 0)

/-- Witness for `marker_follow_edge_triggered` at `qrNoMarkerView`:
state LOST ≠ last_state −1, so one settle pair is published, nothing
further (LOST), and `last_state` becomes the state. -/
theorem marker_follow_edge_triggered_witness :
    qrNoMarkerView.mode = QR_CODE_MODE ∧
    qrNoMarkerView.camera_image = some 720 ∧
    (update qrNoMarkerView).cmds = [(Axis.Forward, 0), (Axis.Rotate, 0)] ∧
    (update qrNoMarkerView).view.last_state = qrNoMarkerView.state := by
  have hm : qrNoMarkerView.mode = QR_CODE_MODE := rfl
  have hc : qrNoMarkerView.camera_image = some 720 := rfl
  have hst : qrNoMarkerView.state = STATE_LOST := by
    simp [qrNoMarkerView, switch_to_qrcode, camera_image_callback,
      update_state]
  have hls : qrNoMarkerView.last_state = -1 := rfl
  have hne : qrNoMarkerView.state ≠ qrNoMarkerView.last_state := by
    rw [hst, hls]; decide
  have h := (marker_follow_edge_triggered qrNoMarkerView 720 hm hc).2 hne
  exact ⟨hm, hc, h.2.2.2.2 (Or.inl hst), h.2.1⟩

/-- Claim C4: with a destination set, the waypoint controller prioritizes
heading before translation: if `|relative_angle| > 4°` and
`relative_distance > 5 cm` it publishes zero translation and the PD
rotation command; else if `relative_distance > 5` it publishes the fixed
20 cm/s cruise with zero rotation; and whenever
`relative_distance ≤ 5` it publishes zero on both channels, regardless of
the angle error. -/
theorem waypoint_heading_before_translation (s : MainView) (d : Pt)
    (hd : s.destination = some d) :
    ((|waypoint_relative_angle s d| > 4 ∧
        waypoint_relative_distance s d > 5) →
      (go_to_destination s).cmds = [(Axis.Forward, 0), (Axis.Rotate,
        1 * waypoint_relative_angle s d +
        2 * (waypoint_relative_angle s d - s.last_angle) +
        0.04 * s.cumulative_error_angle)]) ∧
    ((¬ |waypoint_relative_angle s d| > 4 ∧
        waypoint_relative_distance s d > 5) →
      (go_to_destination s).cmds = [(Axis.Forward, 20), (Axis.Rotate, 0)]) ∧
    (waypoint_relative_distance s d ≤ 5 →
      (go_to_destination s).cmds = [(Axis.Forward, 0), (Axis.Rotate, 0)]) := by
  simp only [go_to_destination, hd, set_movement]
  split_ifs with h1 h2
  · refine ⟨fun _ => rfl, fun h => ?_, fun h => ?_⟩
    · exact absurd h1.1 h.1
    · exact absurd h1.2 (not_lt.mpr h)
  · refine ⟨fun h => ?_, fun _ => rfl, fun h => ?_⟩
    · exact absurd h h1
    · exact absurd h2 (not_lt.mpr h)
  · refine ⟨fun h => ?_, fun h => ?_, fun _ => rfl⟩
    · exact absurd h h1
    · exact absurd h.2 h2

/-- The view with the robot at the SLAM origin pose `(0, 0, 0°)` and the
destination set to `(0, 100)` (100 cm to the +y side). -/
noncomputable def wpView : MainView := set_destination mainViewInit (some (0, 100))

/-- Witness for `waypoint_heading_before_translation` at `wpView`: the
bearing is `270°` (the sign-branch arctangent), the distance is `100 cm`,
so the first branch fires and the published pair is zero translation with
the PD rotation value `810`. -/
theorem waypoint_heading_before_translation_witness :
    wpView.destination = some ((0 : ℝ), (100 : ℝ)) ∧
    (|waypoint_relative_angle wpView (0, 100)| > 4 ∧
      waypoint_relative_distance wpView (0, 100) > 5) ∧
    (go_to_destination wpView).cmds =
      [(Axis.Forward, 0), (Axis.Rotate, 810)] := by
  have hd : wpView.destination = some ((0 : ℝ), (100 : ℝ)) := rfl
  have hpin : Real.pi ≠ 0 := Real.pi_ne_zero
  have hang : waypoint_relative_angle wpView (0, 100) = 270 := by
    have h1 : ieeeAtan (100 - 0) (0 - 0) = Real.pi / 2 := by
      norm_num [ieeeAtan]
    have e : waypoint_relative_angle wpView (0, 100) =
        relative_position_angle (0 - 0) (100 - 0) - 0 := rfl
    rw [e, relative_position_angle, h1, if_pos (by norm_num : (0:ℝ) ≤ 0 - 0)]
    field_simp
    ring
  have hdist : waypoint_relative_distance wpView (0, 100) = 100 := by
    simp only [waypoint_relative_distance, wpView, set_destination,
      mainViewInit]
    norm_num
    rw [show (10000 : ℝ) = 100 ^ 2 by norm_num, Real.sqrt_sq (by norm_num)]
  have hcond : |waypoint_relative_angle wpView (0, 100)| > 4 ∧
      waypoint_relative_distance wpView (0, 100) > 5 := by
    rw [hang, hdist]; norm_num
  have h := (waypoint_heading_before_translation wpView (0, 100) hd).1 hcond
  refine ⟨hd, hcond, ?_⟩
  rw [h, hang]
  have hla : wpView.last_angle = 0 := rfl
  have hca : wpView.cumulative_error_angle = 0 := rfl
  rw [hla, hca]
  norm_num

/-- Claim C5, counterexample: the bearing computation is NOT a
quadrant-aware two-argument arctangent normalized into `(-180°, 180°]`:
for the x-delta `0` and y-delta `100` (destination straight up the +y
axis) the code takes the `x >= 0` branch, divides by zero (IEEE `+inf`),
and produces the bearing `270°`, outside `(-180°, 180°]`. -/
theorem waypoint_bearing_not_normalized :
    relative_position_angle 0 100 = 270 ∧
    ¬ (relative_position_angle 0 100 ≤ 180) := by
  have h1 : ieeeAtan 100 0 = Real.pi / 2 := by norm_num [ieeeAtan]
  have h : relative_position_angle 0 100 = 270 := by
    rw [relative_position_angle, h1, if_pos (le_refl (0 : ℝ))]
    field_simp
    ring
  exact ⟨h, by rw [h]; norm_num⟩

/-- Claim C5, amended: the bearing is computed with a single-argument
arctangent branched on the sign of the x-delta, adding `π` whenever
`x ≥ 0`; the computation never faults (at `x = 0` the IEEE quotient is
`±inf`, whose arctangent is `±π/2`; at `x = y = 0` it is NaN, which is
consumed only by a comparison that is conjoined with a then-false distance
test), and for every delta other than the zero vector the resulting
bearing lies in `(-90°, 270°]` — not in `(-180°, 180°]`. -/
theorem waypoint_bearing_range (x y : ℝ) (h : ¬ (x = 0 ∧ y = 0)) :
    -90 < relative_position_angle x y ∧ relative_position_angle x y ≤ 270 := by
  have hpi : (0 : ℝ) < Real.pi := Real.pi_pos
  rcases lt_trichotomy x 0 with hx | hx | hx
  · have hnot : ¬ (0 : ℝ) ≤ x := not_le.mpr hx
    have hx0 : x ≠ 0 := ne_of_lt hx
    rw [relative_position_angle, ieeeAtan, if_neg hnot, if_neg hx0]
    have ht1 : -(Real.pi / 2) < Real.arctan (y / x) :=
      Real.neg_pi_div_two_lt_arctan (y / x)
    have ht2 : Real.arctan (y / x) < Real.pi / 2 :=
      Real.arctan_lt_pi_div_two (y / x)
    constructor
    · rw [lt_div_iff hpi]; nlinarith
    · rw [div_le_iff hpi]; nlinarith
  · have hy : y ≠ 0 := fun hy => h ⟨hx, hy⟩
    subst hx
    rw [relative_position_angle, ieeeAtan, if_pos (le_refl (0 : ℝ)),
      if_pos rfl]
    rcases hy.lt_or_lt with hy1 | hy1
    · rw [if_neg (not_lt.mpr (le_of_lt hy1)), if_pos hy1]
      constructor
      · rw [lt_div_iff hpi]; nlinarith
      · rw [div_le_iff hpi]; nlinarith
    · rw [if_pos hy1]
      constructor
      · rw [lt_div_iff hpi]; nlinarith
      · rw [div_le_iff hpi]; nlinarith
  · have hle : (0 : ℝ) ≤ x := le_of_lt hx
    have hx0 : x ≠ 0 := ne_of_gt hx
    rw [relative_position_angle, ieeeAtan, if_pos hle, if_neg hx0]
    have ht1 : -(Real.pi / 2) < Real.arctan (y / x) :=
      Real.neg_pi_div_two_lt_arctan (y / x)
    have ht2 : Real.arctan (y / x) < Real.pi / 2 :=
      Real.arctan_lt_pi_div_two (y / x)
    constructor
    · rw [lt_div_iff hpi]; nlinarith
    · rw [div_le_iff hpi]; nlinarith

/-- Witness for `waypoint_bearing_range` at the delta `(0, 100)`: the
bearing is defined (no fault) and lies in `(-90°, 270°]`. -/
theorem waypoint_bearing_range_witness :
    ¬ ((0 : ℝ) = 0 ∧ (100 : ℝ) = 0) ∧
    (-90 < relative_position_angle 0 100 ∧
      relative_position_angle 0 100 ≤ 270) := by
  have hh : ¬ ((0 : ℝ) = 0 ∧ (100 : ℝ) = 0) := by norm_num
  exact ⟨hh, waypoint_bearing_range 0 100 hh⟩

/-- Helper: filtering an enumerated list by a predicate on the value keeps
as many entries as filtering the list itself. -/
theorem length_filter_enumFrom_snd (q : ℝ → Bool) (l : List ℝ) :
    ∀ n : ℕ, ((List.enumFrom n l).filter (fun p => q p.2)).length =
      (l.filter q).length := by
  induction l with
  | nil => intro n; rfl
  | cons a t ih =>
    intro n
    simp only [List.enumFrom, List.filter_cons]
    cases hq : q a <;> simp [hq, ih (n + 1)]

/-- Claim C6, counterexample: signal quality is NOT used as an exclusion
criterion.  A 360-ray scan whose every intensity is `0` (below any
positive reliability threshold) at range `0.1 m` (100 mm < 750 mm) is
projected in full — all 360 low-quality samples appear in the Cartesian
cloud — and the cloud is identical to the one obtained with every
intensity at `1000`. -/
theorem lidar_quality_filter_counterexample :
    (lidar_scan_outputs (List.replicate 360 0.1)
      (List.replicate 360 0)).cloud.length = 360 ∧
    (lidar_scan_outputs (List.replicate 360 0.1)
        (List.replicate 360 0)).cloud =
      (lidar_scan_outputs (List.replicate 360 0.1)
        (List.replicate 360 1000)).cloud := by
  refine ⟨?_, rfl⟩
  have hmap : ((List.replicate 360 (0.1 : ℝ)).map (fun z => z * 1000)) =
      List.replicate 360 (100 : ℝ) := by
    rw [List.map_replicate]; norm_num
  show (lidar_cloud ((List.replicate 360 (0.1 : ℝ)).map
    (fun z => z * 1000))).length = 360
  rw [hmap, lidar_cloud, List.length_map]
  have hfil : (List.enum (List.replicate 360 (100 : ℝ))).filter
      (fun p => decide (p.2 < 750)) = List.enum (List.replicate 360 (100 : ℝ)) := by
    rw [List.filter_eq_self]
    refine List.forall_mem_enum.mpr ?_
    intro i hi
    simp only [List.getElem_replicate]
    exact decide_eq_true (by norm_num)
  rw [hfil, List.enum_length, List.length_replicate]

/-- Claim C6, amended: the Cartesian projection of a range scan excludes a
sample exactly according to the 750 mm distance cutoff, never according to
its signal quality — the `intensities` array is ignored entirely (any two
scans with the same ranges produce identical outputs) — while every
sample, regardless of quality, is passed to the localization update as
`range * 1000`. -/
theorem lidar_projection_ignores_quality
    (ranges intensities intensities' : List ℝ) (i : ℕ) (r : ℝ)
    (hr : ranges.get? i = some r) :
    (lidar_scan_outputs ranges intensities).slam_scan_mm.get? i =
      some (r * 1000) ∧
    lidar_scan_outputs ranges intensities =
      lidar_scan_outputs ranges intensities' ∧
    (lidar_scan_outputs ranges intensities).cloud.length =
      ((ranges.map (fun z => z * 1000)).filter
        (fun d => decide (d < 750))).length := by
  refine ⟨?_, rfl, ?_⟩
  · show (ranges.map (fun z => z * 1000)).get? i = some (r * 1000)
    rw [List.get?_map, hr]; rfl
  · show (lidar_cloud (ranges.map (fun z => z * 1000))).length = _
    rw [lidar_cloud, List.length_map]
    exact length_filter_enumFrom_snd (fun d => decide (d < 750))
      (ranges.map (fun z => z * 1000)) 0

/-- Witness for `lidar_projection_ignores_quality` at a one-ray scan of
range `0.1 m` and intensity `0`: the localization-facing output carries
`100 mm` at index `0`. -/
theorem lidar_projection_ignores_quality_witness :
    ([(0.1 : ℝ)].get? 0 = some 0.1) ∧
    (lidar_scan_outputs [(0.1 : ℝ)] [(0 : ℝ)]).slam_scan_mm.get? 0 =
      some (0.1 * 1000) := by
  have hr : ([(0.1 : ℝ)]).get? 0 = some 0.1 := rfl
  exact ⟨hr,
    (lidar_projection_ignores_quality [(0.1 : ℝ)] [0] [1000] 0 0.1 hr).1⟩

set_option maxRecDepth 4000 in
/-- Claim C8: for every 360-ray scan the localization-facing output is the
ranges scaled by 1000 (m → mm) with angle list `0..359`, all 360 entries
unfiltered, and re-dividing by the same factor recovers the original
ranges exactly; for the concrete scan of 360 rays all at 4000 mm
(`4 m` ranges) the Cartesian cloud is empty after the 750 mm cutoff while
the scan output still has all 360 entries. -/
theorem scan_mm_roundtrip (ranges intensities : List ℝ)
    (h : ranges.length = 360) :
    (lidar_scan_outputs ranges intensities).slam_angles = List.range 360 ∧
    (lidar_scan_outputs ranges intensities).slam_scan_mm.length = 360 ∧
    (lidar_scan_outputs ranges intensities).slam_scan_mm.map
      (fun z => z / 1000) = ranges ∧
    (lidar_scan_outputs (List.replicate 360 4)
      intensities).slam_scan_mm.length = 360 ∧
    (lidar_scan_outputs (List.replicate 360 4) intensities).cloud = [] := by
  refine ⟨rfl, ?_, ?_, ?_, ?_⟩
  · show (ranges.map fun z => z * 1000).length = 360
    rw [List.length_map, h]
  · show ((ranges.map fun z => z * 1000).map fun z => z / 1000) = ranges
    rw [List.map_map]
    have hid : ((fun z : ℝ => z / 1000) ∘ fun z : ℝ => z * 1000) = id := by
      funext z
      show z * 1000 / 1000 = id z
      rw [mul_div_assoc]
      norm_num
    rw [hid, List.map_id]
  · show ((List.replicate 360 (4 : ℝ)).map fun z => z * 1000).length = 360
    rw [List.length_map, List.length_replicate]
  · show lidar_cloud ((List.replicate 360 (4 : ℝ)).map
      fun z => z * 1000) = []
    have hmap : ((List.replicate 360 (4 : ℝ)).map fun z => z * 1000) =
        List.replicate 360 (4000 : ℝ) := by
      rw [List.map_replicate]; norm_num
    rw [hmap, lidar_cloud]
    have hfil : (List.enum (List.replicate 360 (4000 : ℝ))).filter
        (fun p => decide (p.2 < 750)) = [] := by
      rw [List.filter_eq_nil_iff]
      refine List.forall_mem_enum.mpr ?_
      intro i hi
      simp only [List.getElem_replicate, decide_eq_true_eq]
      norm_num
    rw [hfil]; rfl

/-- Witness for `scan_mm_roundtrip` at the all-4 m scan: it has 360 rays
and the round trip recovers it. -/
theorem scan_mm_roundtrip_witness :
    (List.replicate 360 (4 : ℝ)).length = 360 ∧
    (lidar_scan_outputs (List.replicate 360 (4 : ℝ)) []).slam_scan_mm.map
      (fun z => z / 1000) = List.replicate 360 4 := by
  have h : (List.replicate 360 (4 : ℝ)).length = 360 := by
    rw [List.length_replicate]
  exact ⟨h, (scan_mm_roundtrip (List.replicate 360 4) [] h).2.2.1⟩

/-- The view right after startup once the operator clicks "QRcode Mode",
before any camera frame has arrived: `camera_image` is still `None` and
`state = STATE_FINISH ≠ -1 = last_state`. -/
noncomputable def qrModeNoFrame : MainView := switch_to_qrcode mainViewInit

/-- Claim C7 evaluated at the failing input: with no camera frame received,
the QR-mode update does NOT hold zero velocity gracefully — it publishes
the zero-velocity settle pair and then raises an `AttributeError`
(`self.camera_image.get_width()` on `None`), i.e. the embedded step
faults. -/
theorem missing_frame_faults :
    qrModeNoFrame.camera_image = none ∧
    qrModeNoFrame.state ≠ qrModeNoFrame.last_state ∧
    (update qrModeNoFrame).faulted = true ∧
    (update qrModeNoFrame).cmds = [(Axis.Forward, 0), (Axis.Rotate, 0)] := by
  refine ⟨rfl, by decide, ?_, ?_⟩ <;>
    simp [update, qrModeNoFrame, switch_to_qrcode, mainViewInit,
      marker_follow_update, QR_CODE_MODE, STATE_FINISH]

/-- Claim C9: velocity commands are only published by the handler of the
currently selected mode.  Every manual key-down/key-release handler
publishes nothing unless the mode is MANUAL; when the mode is not QR_CODE
the update step is exactly the waypoint step (LIDAR) or a no-op, so the
marker-following branch contributes nothing; when the mode is not LIDAR
the update step is exactly the marker-following step (QR_CODE) or a no-op;
and in MANUAL mode the update step publishes nothing and leaves the state
unchanged. -/
theorem single_writer_mode_gating (s : MainView) :
    (s.mode ≠ MANUAL_MODE →
      turtle_up s = [] ∧ turtle_down s = [] ∧ turtle_left s = [] ∧
      turtle_right s = [] ∧ turtle_standby_up s = [] ∧
      turtle_standby_down s = [] ∧ turtle_standby_left s = [] ∧
      turtle_standby_right s = []) ∧
    (s.mode ≠ QR_CODE_MODE →
      update s = if s.mode = LIDAR_MODE then go_to_destination s
        else ⟨s, [], false⟩) ∧
    (s.mode ≠ LIDAR_MODE →
      update s = if s.mode = QR_CODE_MODE then marker_follow_update s
        else ⟨s, [], false⟩) ∧
    (s.mode = MANUAL_MODE →
      (update s).cmds = [] ∧ (update s).view = s) := by
  refine ⟨?_, ?_, ?_, ?_⟩
  · intro hm
    simp [turtle_up, turtle_down, turtle_left, turtle_right,
      turtle_standby_up, turtle_standby_down, turtle_standby_left,
      turtle_standby_right, hm]
  · intro hm
    simp [update, hm]
  · intro hm
    by_cases hq : s.mode = QR_CODE_MODE <;> simp [update, hm, hq]
  · intro hm
    have h1 : s.mode ≠ QR_CODE_MODE := by
      rw [hm]; decide
    have h2 : s.mode ≠ LIDAR_MODE := by
      rw [hm]; decide
    simp [update, h1, h2]

/-- Witness for `single_writer_mode_gating` in LIDAR mode: the manual
key handler publishes nothing and the update step is exactly the waypoint
step. -/
theorem single_writer_mode_gating_witness :
    (switch_to_lidar mainViewInit).mode ≠ MANUAL_MODE ∧
    turtle_up (switch_to_lidar mainViewInit) = [] ∧
    update (switch_to_lidar mainViewInit) =
      go_to_destination (switch_to_lidar mainViewInit) := by
  have hm : (switch_to_lidar mainViewInit).mode ≠ MANUAL_MODE := by decide
  have hq : (switch_to_lidar mainViewInit).mode ≠ QR_CODE_MODE := by decide
  have h := single_writer_mode_gating (switch_to_lidar mainViewInit)
  refine ⟨hm, (h.1 hm).1, ?_⟩
  rw [h.2.1 hq]
  exact if_pos rfl

/-- The destination invariant claimed by C10: the destination is present
and strictly inside `±map_size_meters * 100 / 2` on both axes. -/
def destination_invariant (s : MainView) : Prop :=
  ∃ p : Pt, s.destination = some p ∧
    -s.map_size_meters * 100 / 2 < p.1 ∧ p.1 < s.map_size_meters * 100 / 2 ∧
    -s.map_size_meters * 100 / 2 < p.2 ∧ p.2 < s.map_size_meters * 100 / 2

/-- Claim C10, counterexample: the destination IS clearable through an
operation of the class — `set_destination` assigns its argument
unconditionally, so `set_destination(None)` right after construction
leaves the view with no destination, falsifying "after construction the
destination is never absent … through the class's own operations". -/
theorem destination_cleared_by_setter :
    (set_destination mainViewInit none).destination = none := rfl

/-- Helper: the destination invariant only looks at `destination` and
`map_size_meters`, so it transports along operations preserving both. -/
theorem destination_invariant_congr {s t : MainView}
    (hdst : t.destination = s.destination)
    (hmsm : t.map_size_meters = s.map_size_meters)
    (hs : destination_invariant s) : destination_invariant t := by
  obtain ⟨p, hp, h1, h2, h3, h4⟩ := hs
  rw [destination_invariant, hdst, hmsm]
  exact ⟨p, hp, h1, h2, h3, h4⟩

/-- Claim C10, amended: `__init__` establishes the invariant (destination
`(0, 0)`, strictly inside `±map_size_meters*100/2`), and every modelled
operation of `MainView` EXCEPT `set_destination` preserves it —
`mouse_input` only overwrites the destination with strictly in-bounds
world points, and no other operation touches it — so through those
operations the destination is never absent and the waypoint controller's
`destination is None` zero-velocity branch is unreachable; the unused
`set_destination` method, however, assigns its argument unconditionally
and can clear the destination (see the counterexample). -/
theorem destination_invariant_preserved (s : MainView) (button : ℕ)
    (px py cw ch tv : ℝ) (quad : Option Quad)
    (ranges intensities : List ℝ) (sp : ℝ × ℝ × ℝ)
    (hs : destination_invariant s) :
    destination_invariant mainViewInit ∧
    destination_invariant (mouse_input s button px py) ∧
    destination_invariant ((update s).view) ∧
    destination_invariant ((go_to_destination s).view) ∧
    destination_invariant ((marker_follow_update s).view) ∧
    destination_invariant (switch_to_manual s) ∧
    destination_invariant (switch_to_qrcode s) ∧
    destination_invariant (switch_to_lidar s) ∧
    destination_invariant (camera_image_callback s cw ch quad tv) ∧
    destination_invariant (lidar_scan_callback s ranges intensities sp) ∧
    s.destination ≠ none := by
  have hgo : ∀ t : MainView,
      (go_to_destination t).view.destination = t.destination ∧
      (go_to_destination t).view.map_size_meters = t.map_size_meters := by
    intro t
    rcases hd : t.destination with _ | d
    · simp [go_to_destination, hd]
    · simp only [go_to_destination, hd]
      split_ifs <;> simp [hd]
  have hmf : ∀ t : MainView,
      (marker_follow_update t).view.destination = t.destination ∧
      (marker_follow_update t).view.map_size_meters = t.map_size_meters := by
    intro t
    rw [marker_follow_update]
    split_ifs <;>
      rcases hc : t.camera_image with _ | w <;>
      simp [hc]
  refine ⟨?_, ?_, ?_, ?_, ?_, ?_, ?_, ?_, ?_, ?_, ?_⟩
  · refine ⟨(0, 0), rfl, ?_, ?_, ?_, ?_⟩ <;> norm_num [mainViewInit]
  · simp only [mouse_input]
    split_ifs with hb h1 h2
    · exact ⟨_, rfl, h1.1, h1.2, h2.1, h2.2⟩
    · exact hs
    · exact hs
    · exact hs
  · rw [update]
    split_ifs
    · exact destination_invariant_congr (hmf s).1 (hmf s).2 hs
    · exact destination_invariant_congr (hgo s).1 (hgo s).2 hs
    · exact hs
  · exact destination_invariant_congr (hgo s).1 (hgo s).2 hs
  · exact destination_invariant_congr (hmf s).1 (hmf s).2 hs
  · exact destination_invariant_congr rfl rfl hs
  · exact destination_invariant_congr rfl rfl hs
  · exact destination_invariant_congr rfl rfl hs
  · rcases quad with _ | q <;> exact destination_invariant_congr rfl rfl hs
  · exact destination_invariant_congr rfl rfl hs
  · obtain ⟨p, hp, _⟩ := hs
    rw [hp]
    simp

/-- Witness for `destination_invariant_preserved` at the initial view:
the invariant holds after construction, is kept by a (left-button) mouse
click at the screen origin, and the destination is present. -/
theorem destination_invariant_preserved_witness :
    destination_invariant mainViewInit ∧
    destination_invariant (mouse_input mainViewInit 1 0 0) ∧
    mainViewInit.destination ≠ none := by
  have hinit : destination_invariant mainViewInit := by
    refine ⟨(0, 0), rfl, ?_, ?_, ?_, ?_⟩ <;> norm_num [mainViewInit]
  have h := destination_invariant_preserved mainViewInit 1 0 0 0 0 0 none
    [] [] (0, 0, 0) hinit
  exact ⟨h.1, h.2.1, h.2.2.2.2.2.2.2.2.2.2⟩
